import Mathlib

/-!
Shallow embedding of the Transvip route-optimization post-processing code
(src/config.js constants, src/lib/aux.js reconstruction and view builders,
src/index.js request validation) together with proofs of the specified
properties.  JavaScript strings are modelled as Lean strings, JS numbers that
the code treats as integers as `Int` (with `Option Int` when `parseInt` may
produce `NaN`), JS objects used as dictionaries as association lists whose
reads take the last binding (assignment to an existing key overwrites it),
and code that can `throw` as `Except`-valued functions.  Floating point only
appears in `toFixed(2)` display formatting of the summary statistics; those
values are kept as exact rationals here, which no claim depends on.
-/

namespace Transvip

/-! ### JavaScript string primitives used by the code -/

/-- Substring test on character lists, mirroring `String.prototype.includes`. -/
def charsHasSub (pat : List Char) : List Char → Bool
  | [] => pat.isEmpty
  | c :: rest => pat.isPrefixOf (c :: rest) || charsHasSub pat rest

/-- Model of `s.includes(tok)`. -/
def jsIncludes (s tok : String) : Bool :=
  charsHasSub tok.data s.data

/-- Replace the first occurrence of `pat` by `repl`, mirroring
`String.prototype.replace` with a string pattern (first occurrence only). -/
def charsReplaceFirst (pat repl : List Char) : List Char → List Char
  | [] => if pat.isEmpty then repl else []
  | c :: rest =>
    if pat.isPrefixOf (c :: rest) then repl ++ (c :: rest).drop pat.length
    else c :: charsReplaceFirst pat repl rest

/-- Model of `s.replace(pat, repl)` for string patterns. -/
def jsReplaceFirst (s pat repl : String) : String :=
  ⟨charsReplaceFirst pat.data repl.data s.data⟩

/-- Model of `s.trim()`. -/
def jsTrim (s : String) : String :=
  ⟨((s.data.dropWhile (fun c => c.isWhitespace)).reverse.dropWhile
      (fun c => c.isWhitespace)).reverse⟩

/-- Value of a hexadecimal digit character, if any. -/
def hexDigitVal (c : Char) : Option Nat :=
  if c.isDigit then some (c.toNat - 48)
  else if 'a' ≤ c && c ≤ 'f' then some (c.toNat - 87)
  else if 'A' ≤ c && c ≤ 'F' then some (c.toNat - 55)
  else none

/-- Accumulate digits in the given base. -/
def digitsToNatBase (base : Nat) (ds : List Nat) : Nat :=
  ds.foldl (fun a d => a * base + d) 0

/-- Model of JavaScript `parseInt(s)` with no radix argument: skip leading
whitespace, read an optional sign, then either a `0x`/`0X` hexadecimal literal
or a run of decimal digits; `none` models the `NaN` result. -/
def jsParseInt (s : String) : Option Int :=
  let cs := s.data.dropWhile (fun c => c.isWhitespace)
  let sign : Int := match cs with
    | '-' :: _ => -1
    | _ => 1
  let cs₂ := match cs with
    | '-' :: rest => rest
    | '+' :: rest => rest
    | _ => cs
  let isHex : Bool := match cs₂ with
    | '0' :: c :: _ => c == 'x' || c == 'X'
    | _ => false
  if isHex then
    let hs := (cs₂.drop 2).takeWhile (fun c => (hexDigitVal c).isSome)
    if hs.isEmpty then none
    else some (sign * (digitsToNatBase 16 (hs.filterMap hexDigitVal) : Int))
  else
    let ds := cs₂.takeWhile (fun c => c.isDigit)
    if ds.isEmpty then none
    else some (sign * (digitsToNatBase 10 (ds.map (fun c => c.toNat - 48)) : Int))

/-! ### Data model (shapes of the solver request/response objects) -/

/-- A latitude/longitude pair; coordinates are only copied around, so they are
kept as exact rationals. -/
structure Coordinates where
  latitude : Rat
  longitude : Rat
deriving Repr, DecidableEq

/-- One entry of a booking's `pickups`/`deliveries` arrays. -/
structure StopSpec where
  arrivalLocation : Coordinates
deriving Repr, DecidableEq

/-- A booking (solver shipment) as built by the request adapter. -/
structure Booking where
  label : String
  pickups : List StopSpec
  deliveries : List StopSpec
deriving Repr, DecidableEq

/-- A visit on a solved route.  The source reads
`visit.loadDemands.passengers.amount` and `visit.startTime.seconds`; the
nesting is flattened to one field each. -/
structure Visit where
  shipmentLabel : String
  isPickup : Bool
  startTimeSeconds : Int
  passengersAmount : Int
deriving Repr, DecidableEq

/-- A transition (edge) between two consecutive stops of a route. -/
structure Transition where
  startTimeSeconds : Int
  totalDurationSeconds : Int
  travelDistanceMeters : Int
deriving Repr, DecidableEq

/-- Aggregate metrics of one route. -/
structure Metrics where
  travelDurationSeconds : Int
  visitDurationSeconds : Int
  totalDurationSeconds : Int
  travelDistanceMeters : Int
deriving Repr, DecidableEq

/-- An encoded route polyline (`routePolyline.points`). -/
structure Polyline where
  points : String
deriving Repr, DecidableEq

/-- One route of the solver response. -/
structure Route where
  vehicleLabel : String
  visits : List Visit
  transitions : List Transition
  metrics : Option Metrics
  routePolyline : Option Polyline
deriving Repr, DecidableEq

/-- The solver response, as consumed by `buildOptimizationSummary`. -/
structure SolverResponse where
  routes : List Route
deriving Repr, DecidableEq

/-! ### Constants from src/config.js -/

def BOOKING_TOKEN : String := "Booking"

def MAX_ROUTE_TIME_IN_MINUTES : Nat := 90

def STOP_TIME_IN_MINUTES : Nat := 3

def VEHICLE_CAPACITY : Int := 7

/-! ### src/lib/aux.js -/

/-- Model of `getBookingIDFromShipment`.  The argument is `Option Visit`
(`none` models a null/undefined visit); the result is `Option Int` where
`none` models `NaN` from a failed `parseInt`. -/
def getBookingIDFromShipment (visit : Option Visit) : Option Int :=
  match visit with
  | none => some (-1)
  | some visit =>
    if jsIncludes visit.shipmentLabel BOOKING_TOKEN then
      jsParseInt (jsTrim (jsReplaceFirst visit.shipmentLabel BOOKING_TOKEN ""))
    else
      jsParseInt (jsTrim visit.shipmentLabel)

/-- Errors a JS function can throw: the explicit `new Error(msg)` of the
source, or a TypeError from reading a property of `undefined` (here: a booking
whose `pickups` or `deliveries` array is empty). -/
inductive JsError where
  | error (msg : String)
  | typeError
deriving Repr, DecidableEq

/-- Result shape of `getReferenceBooking`. -/
structure RefBookingResult where
  ref_booking : Booking
  ref_booking_origin_coordinates : Coordinates
  ref_booking_destination_coordinates : Coordinates
deriving Repr, DecidableEq

/-- Model of `getReferenceBooking`: take the first element of
`bookings.filter(b => b.label === visit.shipmentLabel)`; throw the labelled
error when there is none. -/
def getReferenceBooking (bookings : List Booking) (visit : Visit) :
    Except JsError RefBookingResult :=
  match (bookings.filter (fun b => b.label == visit.shipmentLabel)).head? with
  | none =>
    .error (.error ("No booking found with label: " ++ visit.shipmentLabel))
  | some rb =>
    match rb.pickups.head?, rb.deliveries.head? with
    | some p, some d =>
      .ok { ref_booking := rb,
            ref_booking_origin_coordinates := p.arrivalLocation,
            ref_booking_destination_coordinates := d.arrivalLocation }
    | _, _ => .error .typeError

/-- The transition-matching predicate of `getCumulativeDistances`:
`parseInt(t.startTime.seconds) + parseInt(t.totalDuration.seconds) ===
parseInt(visit.startTime.seconds)`. -/
def matchesVisit (v : Visit) (t : Transition) : Bool :=
  t.startTimeSeconds + t.totalDurationSeconds == v.startTimeSeconds

/-- One value of the `distancesByVisit` dictionary. -/
structure DistEntry where
  visitIndex : Nat
  distanceMeters : Int
deriving Repr, DecidableEq

/-- Loop of `getCumulativeDistances`: walk the drop-off visits (index and
running cumulative distance threaded explicitly), and for each visit whose
arriving transition is found, append a binding for its booking id.  Appending
plus last-binding reads models the JS object writes. -/
def getCumulativeDistancesAux (transitions : List Transition) :
    List Visit → Nat → Int → List (Option Int × DistEntry)
  | [], _, _ => []
  | v :: rest, index, cumulativeDistance =>
    match (transitions.filter (matchesVisit v)).head? with
    | some t =>
      (getBookingIDFromShipment (some v),
        { visitIndex := index,
          distanceMeters := cumulativeDistance + t.travelDistanceMeters }) ::
        getCumulativeDistancesAux transitions rest (index + 1)
          (cumulativeDistance + t.travelDistanceMeters)
    | none => getCumulativeDistancesAux transitions rest (index + 1) cumulativeDistance

/-- Model of `getCumulativeDistances`. -/
def getCumulativeDistances (dropoff_visits : List Visit)
    (transitions : List Transition) : List (Option Int × DistEntry) :=
  getCumulativeDistancesAux transitions dropoff_visits 0 0

/-- Reading `distancesByVisit[bookingId]`: the last binding wins, matching JS
object assignment semantics (`NaN` ids collide on the object key "NaN", which
`none == none` reproduces). -/
def objLookup (entries : List (Option Int × DistEntry)) (key : Option Int) :
    Option DistEntry :=
  ((entries.filter (fun e => e.1 == key)).getLast?).map (fun e => e.2)

/-- Model of `getVisitTravelTime`: `Math.round(parseInt(seconds) / 60)`, which
for an integer argument is the floor of `(seconds + 30) / 60`. -/
def getVisitTravelTime (visit : Option Visit) : Int :=
  match visit with
  | none => -1
  | some visit => Int.fdiv (visit.startTimeSeconds + 30) 60

/-- Model of `getPassengersAlongRoute` (`none` models a null route; a route
object always carries a `visits` array here, which subsumes the
`!route.visits` guard). -/
def getPassengersAlongRoute (route : Option Route) : Int :=
  match route with
  | none => 0
  | some route =>
    (((route.visits.map (fun v => v.passengersAmount)).filter
        (fun count => decide (0 < count))).foldl (fun sum count => sum + count) 0)

/-- Model of `getPassengersVisit`. -/
def getPassengersVisit (visit : Visit) (pickup : Bool) : Int :=
  visit.passengersAmount * (if pickup then 1 else -1)

/-- Indexed effectful map used to model `array.map((x, i) => ...)` over a
callback that can throw: stops at the first error. -/
def mapExceptIdx {α β ε : Type} (f : Nat → α → Except ε β) (start : Nat) :
    List α → Except ε (List β)
  | [] => .ok []
  | x :: xs =>
    match f start x with
    | .error e => .error e
    | .ok y =>
      match mapExceptIdx f (start + 1) xs with
      | .error e => .error e
      | .ok ys => .ok (y :: ys)

/-- One emitted record of the detailed visits view. -/
structure VisitDetail where
  route_number : Nat
  visit_index : Nat
  booking_id : Option Int
  origin_lat : Rat
  origin_lng : Rat
  destination_lat : Rat
  destination_lng : Rat
  distance : Int
  travel_time : Int
  pax_count : Int
deriving Repr, DecidableEq

/-- One route of the detailed visits view. -/
structure RouteDetail where
  vehicle : String
  visits : List VisitDetail
  polyline : Option String
deriving Repr, DecidableEq

/-- Per-visit body of the `_visits.map` callback in `getVisitsDetail`. -/
def buildVisitDetail (bookings : List Booking)
    (cumulativeDistances : List (Option Int × DistEntry)) (routeNumber : Nat)
    (pickup : Bool) (visit_index : Nat) (visit : Visit) :
    Except JsError VisitDetail :=
  match getReferenceBooking bookings visit with
  | .error e => .error e
  | .ok r =>
    let bookingId := getBookingIDFromShipment (some visit)
    let cumulativeDistance := objLookup cumulativeDistances bookingId
    .ok { route_number := routeNumber,
          visit_index := visit_index,
          booking_id := bookingId,
          origin_lat := r.ref_booking_origin_coordinates.latitude,
          origin_lng := r.ref_booking_origin_coordinates.longitude,
          destination_lat := r.ref_booking_destination_coordinates.latitude,
          destination_lng := r.ref_booking_destination_coordinates.longitude,
          distance := ((cumulativeDistance.map DistEntry.distanceMeters).getD 0),
          travel_time := getVisitTravelTime (some visit),
          pax_count := getPassengersVisit visit pickup }

/-- Per-route body of the `routes.map` callback in `getVisitsDetail`. -/
def routeVisitsDetail (bookings : List Booking) (pickup : Bool) (index : Nat)
    (route : Route) : Except JsError RouteDetail :=
  let pickup_visits := route.visits.filter (fun v => v.isPickup)
  let dropoff_visits := route.visits.filter (fun v => !v.isPickup)
  let theVisits := if pickup then pickup_visits else dropoff_visits
  let cumulativeDistances := getCumulativeDistances dropoff_visits route.transitions
  match mapExceptIdx (buildVisitDetail bookings cumulativeDistances (index + 1) pickup)
      0 theVisits with
  | .error e => .error e
  | .ok visits =>
    .ok { vehicle := route.vehicleLabel,
          visits := visits,
          polyline := route.routePolyline.map Polyline.points }

/-- Model of `getVisitsDetail`. -/
def getVisitsDetail (bookings : List Booking) (routes : List Route)
    (pickup : Bool := false) : Except JsError (List RouteDetail) :=
  mapExceptIdx (routeVisitsDetail bookings pickup) 0 routes

/-- Statistics block of one summarized route.  The `toFixed(2)` string
formatting of the source is elided: the minute values are exact rationals. -/
structure RouteStats where
  total_travel_time_minutes : Rat
  total_stops_time_minutes : Rat
  total_route_time_minutes : Rat
  total_route_distance_mts : Int
  max_route_time_minutes : Nat
deriving Repr, DecidableEq

/-- One entry of `buildOptimizationSummary`'s `output.routes`. -/
structure RouteSummary where
  route_number : Nat
  total_stops : Nat
  total_pickups : Nat
  total_dropoffs : Nat
  vehicle_label : String
  total_passengers : Int
  vehicle_capacity : Int
  stats : RouteStats
deriving Repr, DecidableEq

/-- Output shape of `buildOptimizationSummary`. -/
structure OptimizationSummary where
  total_routes : Nat
  routes : List RouteSummary
deriving Repr, DecidableEq

/-- Summary entry built for a route that has metrics. -/
def mkRouteSummary (index : Nat) (route : Route) (metrics : Metrics) :
    RouteSummary :=
  { route_number := index + 1,
    total_stops := (route.visits.filter (fun v => !v.isPickup)).length,
    total_pickups := (route.visits.filter (fun v => v.isPickup)).length,
    total_dropoffs := (route.visits.filter (fun v => !v.isPickup)).length,
    vehicle_label := route.vehicleLabel,
    total_passengers := getPassengersAlongRoute (some route),
    vehicle_capacity := VEHICLE_CAPACITY,
    stats := { total_travel_time_minutes := (metrics.travelDurationSeconds : Rat) / 60,
               total_stops_time_minutes := (metrics.visitDurationSeconds : Rat) / 60,
               total_route_time_minutes := (metrics.totalDurationSeconds : Rat) / 60,
               total_route_distance_mts := metrics.travelDistanceMeters,
               max_route_time_minutes := MAX_ROUTE_TIME_IN_MINUTES } }

/-- Loop of `buildOptimizationSummary`: routes without metrics are skipped
(the early `return` of the `forEach` callback). -/
def summaryRoutesAux : Nat → List Route → List RouteSummary
  | _, [] => []
  | index, route :: rest =>
    match route.metrics with
    | none => summaryRoutesAux (index + 1) rest
    | some metrics => mkRouteSummary index route metrics :: summaryRoutesAux (index + 1) rest

/-- Model of `buildOptimizationSummary`. -/
def buildOptimizationSummary (response : SolverResponse) : OptimizationSummary :=
  { total_routes := response.routes.length,
    routes := summaryRoutesAux 0 response.routes }

/-- One record of the flat legacy API response. -/
structure FlatRecord where
  num_ruta : Nat
  num_viaje : Nat
  posicion_en_ruta : Int
  cod_cliente : Option Int
  lat : Rat
  lng : Rat
  distancia : Int
  tiempo_viaje : Int
deriving Repr, DecidableEq

/-- Output shape of `createVisitsAPIResponse`: `responde` is `none` until the
first route iteration assigns it. -/
structure VisitsAPIResponse where
  status : String
  responde : Option (List FlatRecord)
deriving Repr, DecidableEq

/-- Per-visit body of the `dropoff_visits.map` callback in
`createVisitsAPIResponse`. -/
def buildFlatVisitRecord (bookings : List Booking)
    (cumulativeDistances : List (Option Int × DistEntry)) (routeNumber : Nat)
    (visit_index : Nat) (visit : Visit) : Except JsError FlatRecord :=
  match getReferenceBooking bookings visit with
  | .error e => .error e
  | .ok r =>
    let bookingId := getBookingIDFromShipment (some visit)
    let cumulativeDistance := objLookup cumulativeDistances bookingId
    .ok { num_ruta := routeNumber,
          num_viaje := routeNumber,
          posicion_en_ruta := (visit_index : Int),
          cod_cliente := bookingId,
          lat := r.ref_booking_destination_coordinates.latitude,
          lng := r.ref_booking_destination_coordinates.longitude,
          distancia := ((cumulativeDistance.map DistEntry.distanceMeters).getD 0),
          tiempo_viaje := getVisitTravelTime (some visit) }

/-- Record list `[startElement, ...visitDetails]` built for one route by
`createVisitsAPIResponse`: the start element (position −1) takes the first
drop-off's booking-origin coordinates when a drop-off exists and keeps the
zero placeholders otherwise. -/
def routeFlatRecords (bookings : List Booking) (index : Nat) (route : Route) :
    Except JsError (List FlatRecord) :=
  let dropoff_visits := route.visits.filter (fun v => !v.isPickup)
  let cumulativeDistances := getCumulativeDistances dropoff_visits route.transitions
  let startElement0 : FlatRecord :=
    { num_ruta := index + 1, num_viaje := index + 1, posicion_en_ruta := -1,
      cod_cliente := some 0, lat := 0, lng := 0, distancia := 0, tiempo_viaje := 0 }
  match dropoff_visits.head? with
  | none =>
    match mapExceptIdx (buildFlatVisitRecord bookings cumulativeDistances (index + 1))
        0 dropoff_visits with
    | .error e => .error e
    | .ok visitDetails => .ok (startElement0 :: visitDetails)
  | some firstVisit =>
    match getReferenceBooking bookings firstVisit with
    | .error e => .error e
    | .ok r =>
      let startElement :=
        { startElement0 with
          lat := r.ref_booking_origin_coordinates.latitude,
          lng := r.ref_booking_origin_coordinates.longitude }
      match mapExceptIdx (buildFlatVisitRecord bookings cumulativeDistances (index + 1))
          0 dropoff_visits with
      | .error e => .error e
      | .ok visitDetails => .ok (startElement :: visitDetails)

/-- Loop of `createVisitsAPIResponse`: each route iteration overwrites
`results.responde` with that route's record list. -/
def createVisitsAPIRespAux (bookings : List Booking) :
    Nat → List Route → VisitsAPIResponse → Except JsError VisitsAPIResponse
  | _, [], results => .ok results
  | index, route :: rest, results =>
    match routeFlatRecords bookings index route with
    | .error e => .error e
    | .ok records =>
      createVisitsAPIRespAux bookings (index + 1) rest
        { results with responde := some records }

/-- Model of `createVisitsAPIResponse`. -/
def createVisitsAPIResponse (bookings : List Booking) (routes : List Route) :
    Except JsError VisitsAPIResponse :=
  createVisitsAPIRespAux bookings 0 routes { status := "Ok", responde := none }

/-! ### src/index.js request validation -/

/-- One booking of the inbound (customer-format) request. -/
structure BookingInput where
  job_id : Option String
  pax_count : Int
  origin : String
  destination : Coordinates
deriving Repr, DecidableEq

/-- One vehicle of the inbound request. -/
structure VehicleInput where
  vehicle_number : Option String
  start_location : String
  vehicle_capacity : Option Int
deriving Repr, DecidableEq

/-- A JSON field that the handler checks with
`!x || !Array.isArray(x) || x.length === 0`: it can be absent, present but not
an array, or an array. -/
inductive ArrayField (α : Type) where
  | absent
  | notAnArray
  | value (xs : List α)
deriving Repr, DecidableEq

/-- The validation predicate `!x || !Array.isArray(x) || x.length === 0`. -/
def isInvalidArrayField {α : Type} : ArrayField α → Bool
  | .absent => true
  | .notAnArray => true
  | .value xs => xs.isEmpty

/-- Body of an inbound request (the optional `parameters` block only feeds the
request adapter and is elided). -/
structure RequestBody where
  bookings : ArrayField BookingInput
  vehicles : ArrayField VehicleInput
deriving Repr, DecidableEq

/-- An inbound HTTP request; `body = none` models a missing `req.body`. -/
structure HttpRequest where
  body : Option RequestBody
deriving Repr, DecidableEq

/-- What the handler does up to (and excluding) the external solver call:
either an early error response with a status code and message, or an
invocation of the solver on the validated booking/vehicle arrays. -/
inductive HandlerStep where
  | response (status : Nat) (error : String)
  | solverInvoked (bookings : List BookingInput) (vehicles : List VehicleInput)
deriving Repr, DecidableEq

/-- Array payload of a validated field (only read on the `value` branch). -/
def ArrayField.getArr {α : Type} : ArrayField α → List α
  | .value xs => xs
  | _ => []

/-- Model of `optimizeRouteFunction` up to the solver call: the three
validation gates in source order.  Everything after `await optimizeRoute(...)`
depends on the external solver's answer and is outside the embedded scope. -/
def optimizeRouteFunction (req : HttpRequest) : HandlerStep :=
  match req.body with
  | none => .response 400 "Request body is required"
  | some body =>
    if isInvalidArrayField body.bookings then
      .response 400 "At least one booking is required"
    else if isInvalidArrayField body.vehicles then
      .response 400 "At least one vehicle is required"
    else
      .solverInvoked body.bookings.getArr body.vehicles.getArr

/-! ### Well-formed passenger load profiles (spec §3 invariant, for C8) -/

/-- Running partial sums of a list of signed passenger amounts, starting from
`acc` and including the starting value. -/
def runningLoadsFrom (acc : Int) : List Int → List Int
  | [] => [acc]
  | a :: rest => acc :: runningLoadsFrom (acc + a) rest

/-- The spec's well-formedness invariant for solver output: the running
passenger load along the route never goes negative and never exceeds the
capacity. -/
def wellFormedLoad (route : Route) (cap : Int) : Prop :=
  ∀ s ∈ runningLoadsFrom 0 (route.visits.map (fun v => v.passengersAmount)),
    0 ≤ s ∧ s ≤ cap

instance (route : Route) (cap : Int) : Decidable (wellFormedLoad route cap) := by
  unfold wellFormedLoad
  infer_instance

/-! ### Concrete inputs for counterexamples and witnesses -/

/-- A coordinate pair used by concrete examples. -/
def coordA : Coordinates := { latitude := 1, longitude := 2 }

def coordB : Coordinates := { latitude := 3, longitude := 4 }

def coordC : Coordinates := { latitude := 5, longitude := 6 }

/-- Booking labelled "Booking 1". -/
def bookingOne : Booking :=
  { label := "Booking 1",
    pickups := [{ arrivalLocation := coordA }],
    deliveries := [{ arrivalLocation := coordB }] }

/-- A second booking carrying the same label "Booking 1" but different
coordinates: makes the label ambiguous. -/
def bookingOneDup : Booking :=
  { label := "Booking 1",
    pickups := [{ arrivalLocation := coordC }],
    deliveries := [{ arrivalLocation := coordC }] }

/-- Booking labelled "Booking 2". -/
def bookingTwo : Booking :=
  { label := "Booking 2",
    pickups := [{ arrivalLocation := coordA }],
    deliveries := [{ arrivalLocation := coordC }] }

/-- Drop-off visit for "Booking 1" starting at second 600. -/
def visitOne : Visit :=
  { shipmentLabel := "Booking 1", isPickup := false,
    startTimeSeconds := 600, passengersAmount := -2 }

/-- Drop-off visit for "Booking 2" starting at second 1200. -/
def visitTwo : Visit :=
  { shipmentLabel := "Booking 2", isPickup := false,
    startTimeSeconds := 1200, passengersAmount := -2 }

/-- Transition arriving at `visitTwo` (600 + 600 = 1200), 500 m. -/
def transOneTwo : Transition :=
  { startTimeSeconds := 600, totalDurationSeconds := 600,
    travelDistanceMeters := 500 }

/-- Metrics block of the first example route. -/
def metricsRouteOne : Metrics :=
  { travelDurationSeconds := 1200, visitDurationSeconds := 360,
    totalDurationSeconds := 1560, travelDistanceMeters := 500 }

/-- A route whose first drop-off has no arriving transition record. -/
def routeNoFirstTransition : Route :=
  { vehicleLabel := "V001",
    visits := [visitOne, visitTwo],
    transitions := [transOneTwo],
    metrics := some metricsRouteOne,
    routePolyline := none }

/-- Visit whose shipment label is the bare string "-1": it parses to the
integer −1 although the visit is not null. -/
def visitLabelMinusOne : Visit :=
  { shipmentLabel := "-1", isPickup := false,
    startTimeSeconds := 0, passengersAmount := 0 }

/-- Visit whose shipment label is "Booking -1": contains the token and the
remainder parses to −1. -/
def visitLabelBookingMinusOne : Visit :=
  { shipmentLabel := "Booking -1", isPickup := false,
    startTimeSeconds := 0, passengersAmount := 0 }

/-- Pickup visit template used by the C8 counterexample route. -/
def pickupAmt (label : String) (t : Int) (amt : Int) : Visit :=
  { shipmentLabel := label, isPickup := true,
    startTimeSeconds := t, passengersAmount := amt }

/-- Drop-off visit template used by the C8 counterexample route. -/
def dropoffAmt (label : String) (t : Int) (amt : Int) : Visit :=
  { shipmentLabel := label, isPickup := false,
    startTimeSeconds := t, passengersAmount := amt }

/-- Route whose load profile stays within [0, 7] at every point, yet whose sum
of positive deltas is 10: pick up 5, drop 5, pick up 5, drop 5. -/
def routeTwoWaves : Route :=
  { vehicleLabel := "V002",
    visits := [pickupAmt "Booking 1" 0 5, dropoffAmt "Booking 1" 300 (-5),
               pickupAmt "Booking 2" 600 5, dropoffAmt "Booking 2" 900 (-5)],
    transitions := [],
    metrics := none,
    routePolyline := none }

/-- Route with all pickups before all drop-offs: pick up 2, pick up 3, then
drop both. -/
def routePickupsFirst : Route :=
  { vehicleLabel := "V003",
    visits := [pickupAmt "Booking 1" 0 2, pickupAmt "Booking 2" 100 3,
               dropoffAmt "Booking 1" 300 (-2), dropoffAmt "Booking 2" 500 (-3)],
    transitions := [],
    metrics := none,
    routePolyline := none }

/-- A two-route list for the last-route-wins scenario of C5: the second route
has one drop-off for "Booking 2". -/
def routeSecond : Route :=
  { vehicleLabel := "V004",
    visits := [visitTwo],
    transitions := [transOneTwo],
    metrics := none,
    routePolyline := none }

/-- A well-formed vehicle of the inbound request. -/
def vehicleInputOne : VehicleInput :=
  { vehicle_number := some "V001", start_location := "AMB Terminal 2",
    vehicle_capacity := some 7 }

/-- Inbound request whose bookings field is an empty array. -/
def reqEmptyBookings : HttpRequest :=
  { body := some { bookings := .value [], vehicles := .value [vehicleInputOne] } }

/-- Solver response with one route carrying metrics and one route without. -/
def respC6 : SolverResponse :=
  { routes := [routeNoFirstTransition, routeTwoWaves] }

/-- A visit whose shipment label parses to nothing (no token, no digits). -/
def visitLabelAbc : Visit :=
  { shipmentLabel := "abc", isPickup := false,
    startTimeSeconds := 0, passengersAmount := 0 }

/-- Visit with label "Booking 42". -/
def visitBooking42 : Visit :=
  { shipmentLabel := "Booking 42", isPickup := false,
    startTimeSeconds := 0, passengersAmount := 0 }

/-- Visit with bare label "42". -/
def visitBare42 : Visit :=
  { shipmentLabel := "42", isPickup := false,
    startTimeSeconds := 0, passengersAmount := 0 }

/-- Flat records produced for `routeSecond` at route index 1: the synthetic
start record followed by the single drop-off record. -/
def respC5recs : List FlatRecord :=
  [{ num_ruta := 2, num_viaje := 2, posicion_en_ruta := -1, cod_cliente := some 0,
     lat := 1, lng := 2, distancia := 0, tiempo_viaje := 0 },
   { num_ruta := 2, num_viaje := 2, posicion_en_ruta := 0, cod_cliente := some 2,
     lat := 5, lng := 6, distancia := 500, tiempo_viaje := 20 }]

/-- Flat legacy response on `[routeNoFirstTransition, routeSecond]`: only the
second route's records survive. -/
def respC5 : VisitsAPIResponse :=
  { status := "Ok", responde := some respC5recs }

/-! ### Helper lemmas -/

theorem getBookingIDFromShipment_some (visit : Visit) :
    getBookingIDFromShipment (some visit) =
      if jsIncludes visit.shipmentLabel BOOKING_TOKEN = true then
        jsParseInt (jsTrim (jsReplaceFirst visit.shipmentLabel BOOKING_TOKEN ""))
      else jsParseInt (jsTrim visit.shipmentLabel) := rfl

theorem summaryRoutesAux_length (routes : List Route) :
    ∀ i, (summaryRoutesAux i routes).length =
      (routes.filter (fun r => r.metrics.isSome)).length := by
  induction routes with
  | nil => intro i; rfl
  | cons r rest ih =>
    intro i
    cases hm : r.metrics with
    | none => simp [summaryRoutesAux, hm, List.filter_cons, ih]
    | some m => simp [summaryRoutesAux, hm, List.filter_cons, ih]

theorem summaryRoutesAux_mem (routes : List Route) :
    ∀ i rs, rs ∈ summaryRoutesAux i routes →
      ∃ j, ∃ hj : j < routes.length, ∃ m,
        (routes.get ⟨j, hj⟩).metrics = some m ∧
        rs = mkRouteSummary (i + j) (routes.get ⟨j, hj⟩) m := by
  induction routes with
  | nil => intro i rs h; simp [summaryRoutesAux] at h
  | cons r rest ih =>
    intro i rs h
    cases hm : r.metrics with
    | none =>
      rw [summaryRoutesAux, hm] at h
      obtain ⟨j, hj, m, h1, h2⟩ := ih (i + 1) rs h
      refine ⟨j + 1, by simpa using Nat.succ_lt_succ hj, m, ?_, ?_⟩
      · simpa using h1
      · rw [h2]
        have : i + 1 + j = i + (j + 1) := by omega
        rw [this]
        rfl
    | some m' =>
      rw [summaryRoutesAux, hm] at h
      rcases List.mem_cons.mp h with h1 | h1
      · exact ⟨0, by simp, m', by simpa using hm, by simpa using h1⟩
      · obtain ⟨j, hj, m, hh1, hh2⟩ := ih (i + 1) rs h1
        refine ⟨j + 1, by simpa using Nat.succ_lt_succ hj, m, ?_, ?_⟩
        · simpa using hh1
        · rw [hh2]
          have : i + 1 + j = i + (j + 1) := by omega
          rw [this]
          rfl

theorem mapExceptIdx_length {α β ε : Type} (f : Nat → α → Except ε β) :
    ∀ (xs : List α) (s : Nat) (ys : List β),
      mapExceptIdx f s xs = .ok ys → ys.length = xs.length := by
  intro xs
  induction xs with
  | nil =>
    intro s ys h
    unfold mapExceptIdx at h
    cases h
    rfl
  | cons x xs ih =>
    intro s ys h
    unfold mapExceptIdx at h
    cases hf : f s x with
    | error e => rw [hf] at h; cases h
    | ok y =>
      rw [hf] at h
      cases hm : mapExceptIdx f (s + 1) xs with
      | error e => rw [hm] at h; cases h
      | ok ys' =>
        rw [hm] at h
        cases h
        simp [List.length_cons, ih (s + 1) ys' hm]

theorem mapExceptIdx_get {α β ε : Type} (f : Nat → α → Except ε β) :
    ∀ (xs : List α) (s : Nat) (ys : List β),
      mapExceptIdx f s xs = .ok ys →
      ∀ (k : Nat) (hk : k < xs.length) (hk' : k < ys.length),
        f (s + k) (xs.get ⟨k, hk⟩) = .ok (ys.get ⟨k, hk'⟩) := by
  intro xs
  induction xs with
  | nil =>
    intro s ys h k hk hk'
    simp at hk
  | cons x xs ih =>
    intro s ys h k hk hk'
    unfold mapExceptIdx at h
    cases hf : f s x with
    | error e => rw [hf] at h; cases h
    | ok y =>
      rw [hf] at h
      cases hm : mapExceptIdx f (s + 1) xs with
      | error e => rw [hm] at h; cases h
      | ok ys' =>
        rw [hm] at h
        cases h
        cases k with
        | zero => simpa using hf
        | succ k =>
          have harith : s + (k + 1) = (s + 1) + k := by omega
          rw [harith]
          exact ih (s + 1) ys' hm k (by simpa using Nat.lt_of_succ_lt_succ hk)
            (by simpa using Nat.lt_of_succ_lt_succ hk')

theorem mapExceptIdx_isOk {α β ε : Type} (f : Nat → α → Except ε β) :
    ∀ (xs : List α) (s : Nat),
      (∀ i x, x ∈ xs → ∃ y, f i x = .ok y) →
      ∃ ys, mapExceptIdx f s xs = .ok ys := by
  intro xs
  induction xs with
  | nil => intro s _; exact ⟨[], rfl⟩
  | cons x xs ih =>
    intro s h
    obtain ⟨y, hy⟩ := h s x (List.mem_cons_self x xs)
    obtain ⟨ys, hys⟩ := ih (s + 1) (fun i x' hx' => h i x' (List.mem_cons_of_mem _ hx'))
    refine ⟨y :: ys, ?_⟩
    unfold mapExceptIdx
    rw [hy, hys]

theorem getCumulativeDistancesAux_sorted (ts : List Transition)
    (hts : ∀ t ∈ ts, 0 ≤ t.travelDistanceMeters) :
    ∀ (vs : List Visit) (i : Nat) (c : Int),
      List.Sorted (fun a b => a ≤ b)
        (c :: (getCumulativeDistancesAux ts vs i c).map (fun e => e.2.distanceMeters)) := by
  intro vs
  induction vs with
  | nil => intro i c; simp [getCumulativeDistancesAux]
  | cons v rest ih =>
    intro i c
    unfold getCumulativeDistancesAux
    cases hh : (ts.filter (matchesVisit v)).head? with
    | none => exact ih (i + 1) c
    | some t =>
      have ht : 0 ≤ t.travelDistanceMeters :=
        hts t (List.mem_of_mem_filter (List.mem_of_mem_head? hh))
      simp only [List.map_cons]
      rw [List.sorted_cons]
      refine ⟨?_, ih (i + 1) (c + t.travelDistanceMeters)⟩
      intro b hb
      rcases List.mem_cons.mp hb with hb | hb
      · omega
      · have hsor := ih (i + 1) (c + t.travelDistanceMeters)
        have := (List.sorted_cons.mp hsor).1 b hb
        omega

theorem objLookup_cons_ne (e : Option Int × DistEntry)
    (l : List (Option Int × DistEntry)) (key : Option Int)
    (h : (e.1 == key) = false) :
    objLookup (e :: l) key = objLookup l key := by
  unfold objLookup
  rw [List.filter_cons]
  simp [h]

theorem objLookup_getCumulativeDistancesAux_none (ts : List Transition)
    (key : Option Int) :
    ∀ (vs : List Visit) (i : Nat) (c : Int),
      (∀ v ∈ vs, getBookingIDFromShipment (some v) = key →
        ∀ t ∈ ts, matchesVisit v t = false) →
      objLookup (getCumulativeDistancesAux ts vs i c) key = none := by
  intro vs
  induction vs with
  | nil => intro i c _; rfl
  | cons v rest ih =>
    intro i c h
    unfold getCumulativeDistancesAux
    cases hh : (ts.filter (matchesVisit v)).head? with
    | none => exact ih (i + 1) c (fun v' hv' => h v' (List.mem_cons_of_mem _ hv'))
    | some t =>
      have htmem := List.mem_of_mem_head? hh
      have ht : matchesVisit v t = true := (List.mem_filter.mp htmem).2
      have hts : t ∈ ts := (List.mem_filter.mp htmem).1
      have hne : ¬ getBookingIDFromShipment (some v) = key := by
        intro heq
        have := h v (List.mem_cons_self v rest) heq t hts
        rw [this] at ht
        cases ht
      rw [objLookup_cons_ne _ _ _ (beq_eq_false_iff_ne.mpr hne)]
      exact ih (i + 1) _ (fun v' hv' => h v' (List.mem_cons_of_mem _ hv'))

theorem foldl_add_eq (l : List Int) : ∀ a : Int,
    l.foldl (fun sum count => sum + count) a = a + l.sum := by
  induction l with
  | nil => intro a; simp
  | cons x xs ih =>
    intro a
    rw [List.foldl_cons, List.sum_cons, ih (a + x)]
    ring

theorem sum_mem_runningLoadsFrom :
    ∀ (l₁ l₂ : List Int) (acc : Int),
      acc + l₁.sum ∈ runningLoadsFrom acc (l₁ ++ l₂) := by
  intro l₁
  induction l₁ with
  | nil =>
    intro l₂ acc
    rw [List.nil_append]
    have h0 : acc + List.sum [] = acc := by simp
    rw [h0]
    cases l₂ with
    | nil => simp [runningLoadsFrom]
    | cons a l => simp [runningLoadsFrom]
  | cons a l₁ ih =>
    intro l₂ acc
    rw [List.cons_append]
    show acc + (a :: l₁).sum ∈ acc :: runningLoadsFrom (acc + a) (l₁ ++ l₂)
    have h1 : acc + (a :: l₁).sum = (acc + a) + l₁.sum := by
      rw [List.sum_cons]; ring
    rw [h1]
    exact List.mem_cons_of_mem _ (ih l₂ (acc + a))

theorem buildVisitDetail_fields (bookings : List Booking)
    (cds : List (Option Int × DistEntry)) (rn : Nat) (pickup : Bool) (vi : Nat)
    (visit : Visit) (rec : VisitDetail)
    (h : buildVisitDetail bookings cds rn pickup vi visit = .ok rec) :
    rec.visit_index = vi ∧
    rec.distance = ((objLookup cds (getBookingIDFromShipment (some visit))).map
      DistEntry.distanceMeters).getD 0 := by
  unfold buildVisitDetail at h
  cases href : getReferenceBooking bookings visit with
  | error e => rw [href] at h; cases h
  | ok r =>
    rw [href] at h
    cases h
    exact ⟨rfl, rfl⟩

theorem buildFlatVisitRecord_fields (bookings : List Booking)
    (cds : List (Option Int × DistEntry)) (rn : Nat) (vi : Nat)
    (visit : Visit) (rec : FlatRecord)
    (h : buildFlatVisitRecord bookings cds rn vi visit = .ok rec) :
    rec.posicion_en_ruta = (vi : Int) ∧
    rec.num_ruta = rn ∧
    rec.cod_cliente = getBookingIDFromShipment (some visit) ∧
    rec.distancia = ((objLookup cds (getBookingIDFromShipment (some visit))).map
      DistEntry.distanceMeters).getD 0 := by
  unfold buildFlatVisitRecord at h
  cases href : getReferenceBooking bookings visit with
  | error e => rw [href] at h; cases h
  | ok r =>
    rw [href] at h
    cases h
    exact ⟨rfl, rfl, rfl, rfl⟩

theorem getCumulativeDistances_eq (dropoff_visits : List Visit)
    (transitions : List Transition) :
    getCumulativeDistances dropoff_visits transitions =
      getCumulativeDistancesAux transitions dropoff_visits 0 0 := rfl

theorem routeVisitsDetail_false (bookings : List Booking) (index : Nat)
    (route : Route) :
    routeVisitsDetail bookings false index route =
      match mapExceptIdx (buildVisitDetail bookings
          (getCumulativeDistances (route.visits.filter (fun v => !v.isPickup))
            route.transitions) (index + 1) false) 0
          (route.visits.filter (fun v => !v.isPickup)) with
      | .error e => .error e
      | .ok visits =>
        .ok { vehicle := route.vehicleLabel, visits := visits,
              polyline := route.routePolyline.map Polyline.points } := rfl

theorem routeFlatRecords_eq_none (bookings : List Booking) (index : Nat)
    (route : Route)
    (hh : (route.visits.filter (fun v => !v.isPickup)).head? = none) :
    routeFlatRecords bookings index route =
      match mapExceptIdx (buildFlatVisitRecord bookings
          (getCumulativeDistances (route.visits.filter (fun v => !v.isPickup))
            route.transitions) (index + 1)) 0
          (route.visits.filter (fun v => !v.isPickup)) with
      | .error e => .error e
      | .ok visitDetails =>
        .ok ({ num_ruta := index + 1, num_viaje := index + 1, posicion_en_ruta := -1,
               cod_cliente := some 0, lat := 0, lng := 0, distancia := 0,
               tiempo_viaje := 0 } :: visitDetails) := by
  unfold routeFlatRecords
  simp only []
  rw [hh]

theorem routeFlatRecords_eq_some (bookings : List Booking) (index : Nat)
    (route : Route) (fv : Visit)
    (hh : (route.visits.filter (fun v => !v.isPickup)).head? = some fv) :
    routeFlatRecords bookings index route =
      match getReferenceBooking bookings fv with
      | .error e => .error e
      | .ok r =>
        match mapExceptIdx (buildFlatVisitRecord bookings
            (getCumulativeDistances (route.visits.filter (fun v => !v.isPickup))
              route.transitions) (index + 1)) 0
            (route.visits.filter (fun v => !v.isPickup)) with
        | .error e => .error e
        | .ok visitDetails =>
          .ok ({ num_ruta := index + 1, num_viaje := index + 1, posicion_en_ruta := -1,
                 cod_cliente := some 0,
                 lat := r.ref_booking_origin_coordinates.latitude,
                 lng := r.ref_booking_origin_coordinates.longitude,
                 distancia := 0, tiempo_viaje := 0 } :: visitDetails) := by
  unfold routeFlatRecords
  simp only []
  rw [hh]

theorem routeFlatRecords_shape (bookings : List Booking) (index : Nat)
    (route : Route) (recs : List FlatRecord)
    (h : routeFlatRecords bookings index route = .ok recs) :
    ∃ start rest, recs = start :: rest ∧
      mapExceptIdx (buildFlatVisitRecord bookings
          (getCumulativeDistances (route.visits.filter (fun v => !v.isPickup))
            route.transitions) (index + 1)) 0
        (route.visits.filter (fun v => !v.isPickup)) = .ok rest ∧
      start.num_ruta = index + 1 ∧
      start.num_viaje = index + 1 ∧
      start.posicion_en_ruta = -1 ∧
      start.cod_cliente = some 0 ∧
      start.distancia = 0 ∧
      start.tiempo_viaje = 0 ∧
      ((route.visits.filter (fun v => !v.isPickup)).head? = none →
        start.lat = 0 ∧ start.lng = 0) ∧
      (∀ fv, (route.visits.filter (fun v => !v.isPickup)).head? = some fv →
        ∃ rb, getReferenceBooking bookings fv = .ok rb ∧
          start.lat = rb.ref_booking_origin_coordinates.latitude ∧
          start.lng = rb.ref_booking_origin_coordinates.longitude) := by
  cases hh : (route.visits.filter (fun v => !v.isPickup)).head? with
  | none =>
    rw [routeFlatRecords_eq_none bookings index route hh] at h
    cases hm : mapExceptIdx (buildFlatVisitRecord bookings
        (getCumulativeDistances (route.visits.filter (fun v => !v.isPickup))
          route.transitions) (index + 1)) 0
        (route.visits.filter (fun v => !v.isPickup)) with
    | error e => rw [hm] at h; cases h
    | ok vd =>
      rw [hm] at h
      cases h
      refine ⟨_, vd, rfl, rfl, rfl, rfl, rfl, rfl, rfl, rfl,
        fun _ => ⟨rfl, rfl⟩, ?_⟩
      intro fv hfv
      cases hfv
  | some firstVisit =>
    rw [routeFlatRecords_eq_some bookings index route firstVisit hh] at h
    cases href : getReferenceBooking bookings firstVisit with
    | error e => rw [href] at h; cases h
    | ok rb =>
      rw [href] at h
      cases hm : mapExceptIdx (buildFlatVisitRecord bookings
          (getCumulativeDistances (route.visits.filter (fun v => !v.isPickup))
            route.transitions) (index + 1)) 0
          (route.visits.filter (fun v => !v.isPickup)) with
      | error e => rw [hm] at h; cases h
      | ok vd =>
        rw [hm] at h
        cases h
        refine ⟨_, vd, rfl, rfl, rfl, rfl, rfl, rfl, rfl, rfl, ?_, ?_⟩
        · intro hcontra
          cases hcontra
        · intro fv hfv
          cases hfv
          exact ⟨rb, href, rfl, rfl⟩

theorem routeVisitsDetail_isOk (bookings : List Booking) (index : Nat)
    (route : Route)
    (hres : ∀ v ∈ route.visits.filter (fun v => !v.isPickup),
      ∃ r, getReferenceBooking bookings v = .ok r) :
    ∃ rd, routeVisitsDetail bookings false index route = .ok rd := by
  have hmap : ∀ i v, v ∈ route.visits.filter (fun v => !v.isPickup) →
      ∃ y, buildVisitDetail bookings
        (getCumulativeDistances (route.visits.filter (fun v => !v.isPickup))
          route.transitions) (index + 1) false i v = .ok y := by
    intro i v hv
    obtain ⟨r, hr⟩ := hres v hv
    exact ⟨_, by unfold buildVisitDetail; rw [hr]⟩
  obtain ⟨visits, hm⟩ := mapExceptIdx_isOk (buildVisitDetail bookings
      (getCumulativeDistances (route.visits.filter (fun v => !v.isPickup))
        route.transitions) (index + 1) false)
      (route.visits.filter (fun v => !v.isPickup)) 0 hmap
  exact ⟨_, by rw [routeVisitsDetail_false, hm]⟩

theorem routeFlatRecords_isOk (bookings : List Booking) (index : Nat)
    (route : Route)
    (hres : ∀ v ∈ route.visits.filter (fun v => !v.isPickup),
      ∃ r, getReferenceBooking bookings v = .ok r) :
    ∃ recs, routeFlatRecords bookings index route = .ok recs := by
  have hmap : ∀ i v, v ∈ route.visits.filter (fun v => !v.isPickup) →
      ∃ y, buildFlatVisitRecord bookings
        (getCumulativeDistances (route.visits.filter (fun v => !v.isPickup))
          route.transitions) (index + 1) i v = .ok y := by
    intro i v hv
    obtain ⟨r, hr⟩ := hres v hv
    exact ⟨_, by unfold buildFlatVisitRecord; rw [hr]⟩
  obtain ⟨vd, hm⟩ := mapExceptIdx_isOk (buildFlatVisitRecord bookings
      (getCumulativeDistances (route.visits.filter (fun v => !v.isPickup))
        route.transitions) (index + 1))
      (route.visits.filter (fun v => !v.isPickup)) 0 hmap
  cases hh : (route.visits.filter (fun v => !v.isPickup)).head? with
  | none =>
    exact ⟨_, by rw [routeFlatRecords_eq_none bookings index route hh, hm]⟩
  | some fv =>
    obtain ⟨r, hr⟩ := hres fv (List.mem_of_mem_head? hh)
    exact ⟨_, by rw [routeFlatRecords_eq_some bookings index route fv hh, hr, hm]⟩

theorem createVisitsAPIRespAux_ok (bookings : List Booking) :
    ∀ (routes : List Route) (i : Nat) (acc res : VisitsAPIResponse),
      createVisitsAPIRespAux bookings i routes acc = .ok res →
      res.status = acc.status ∧
      ((routes = [] ∧ res = acc) ∨
        (∃ r recs, routes.getLast? = some r ∧
          routeFlatRecords bookings (i + routes.length - 1) r = .ok recs ∧
          res.responde = some recs)) := by
  intro routes
  induction routes with
  | nil =>
    intro i acc res h
    cases h
    exact ⟨rfl, Or.inl ⟨rfl, rfl⟩⟩
  | cons r rest ih =>
    intro i acc res h
    unfold createVisitsAPIRespAux at h
    cases hf : routeFlatRecords bookings i r with
    | error e => rw [hf] at h; cases h
    | ok records =>
      rw [hf] at h
      obtain ⟨hstat, hrest⟩ := ih (i + 1) _ res h
      refine ⟨hstat, Or.inr ?_⟩
      rcases hrest with ⟨hnil, heq⟩ | ⟨r', recs, hlast, hfr, hresp⟩
      · subst hnil
        refine ⟨r, records, rfl, ?_, ?_⟩
        · simpa using hf
        · rw [heq]
      · cases rest with
        | nil => cases hlast
        | cons r₂ rest₂ =>
          refine ⟨r', recs, ?_, ?_, hresp⟩
          · rw [List.getLast?_cons_cons]
            exact hlast
          · have harith : i + (r₂ :: rest₂).length + 1 - 1 =
                i + 1 + (r₂ :: rest₂).length - 1 := by omega
            simp only [List.length_cons] at harith ⊢
            have harith₂ : i + (rest₂.length + 1 + 1) - 1 =
                i + 1 + (rest₂.length + 1) - 1 := by omega
            rw [harith₂]
            exact hfr

/-! ### Claim theorems: C1 -/

/-- Claim C1 counterexample: with two bookings that both carry the label
"Booking 1", the matcher does not raise an error for the ambiguous match; it
silently returns the first matching booking. -/
theorem claim1_counterexample :
    (([bookingOne, bookingOneDup]).filter
        (fun b => b.label == visitOne.shipmentLabel)).length = 2 ∧
    getReferenceBooking [bookingOne, bookingOneDup] visitOne =
      .ok { ref_booking := bookingOne,
            ref_booking_origin_coordinates := coordA,
            ref_booking_destination_coordinates := coordB } := by
  constructor
  · rfl
  · rfl

/-- Claim C1 (amended): given a visit and the booking set,
`getReferenceBooking` raises the descriptive error naming the missing label
exactly when zero bookings match; when one or more bookings match it returns
the first matching booking (with its first pickup/delivery coordinates) and
never fails on an ambiguous match. -/
theorem claim1_theorem (bookings : List Booking) (visit : Visit) :
    (bookings.filter (fun b => b.label == visit.shipmentLabel) = [] →
      getReferenceBooking bookings visit =
        .error (.error ("No booking found with label: " ++ visit.shipmentLabel))) ∧
    (∀ b rest p ps d ds,
      bookings.filter (fun b => b.label == visit.shipmentLabel) = b :: rest →
      b.pickups = p :: ps → b.deliveries = d :: ds →
      getReferenceBooking bookings visit =
        .ok { ref_booking := b,
              ref_booking_origin_coordinates := p.arrivalLocation,
              ref_booking_destination_coordinates := d.arrivalLocation }) := by
  constructor
  · intro h
    unfold getReferenceBooking
    rw [h]
    rfl
  · intro b rest p ps d ds hf hp hd
    unfold getReferenceBooking
    rw [hf]
    simp only [List.head?]
    rw [hp, hd]

/-- Claim C1 witness: the error branch at an empty booking set, and the
first-match branch at a singleton booking set. -/
theorem claim1_witness :
    getReferenceBooking [] visitOne =
      .error (.error ("No booking found with label: " ++ visitOne.shipmentLabel)) ∧
    getReferenceBooking [bookingOne] visitOne =
      .ok { ref_booking := bookingOne,
            ref_booking_origin_coordinates := coordA,
            ref_booking_destination_coordinates := coordB } := by
  constructor
  · exact (claim1_theorem [] visitOne).1 rfl
  · exact (claim1_theorem [bookingOne] visitOne).2 bookingOne [] _ _ _ _ rfl rfl rfl

/-! ### Claim theorems: C3 -/

/-- Claim C3 counterexample: the visit with shipment label "-1" is not
null/absent, its label parses successfully, and the function returns −1 — so
−1 is not returned only for absent/null visits. -/
theorem claim3_counterexample :
    getBookingIDFromShipment (some visitLabelMinusOne) = some (-1) ∧
    jsParseInt (jsTrim visitLabelMinusOne.shipmentLabel) = some (-1) := by
  constructor
  · rfl
  · rfl

/-- Claim C3 (amended): stripping the token and parsing works on the examples
("Booking 42" → 42, bare "42" → 42); a null visit yields −1; and a label that
fails to parse yields NaN, never −1 — but a non-null visit whose label parses
to the integer −1 also makes the function return −1. -/
theorem claim3_theorem :
    (∀ visit : Visit, visit.shipmentLabel = "Booking 42" →
      getBookingIDFromShipment (some visit) = some 42) ∧
    (∀ visit : Visit, visit.shipmentLabel = "42" →
      getBookingIDFromShipment (some visit) = some 42) ∧
    getBookingIDFromShipment none = some (-1) ∧
    (∀ visit : Visit,
      jsParseInt (jsTrim (jsReplaceFirst visit.shipmentLabel BOOKING_TOKEN "")) = none →
      jsParseInt (jsTrim visit.shipmentLabel) = none →
      getBookingIDFromShipment (some visit) ≠ some (-1)) := by
  refine ⟨?_, ?_, rfl, ?_⟩
  · intro visit h
    rw [getBookingIDFromShipment_some, h]
    rfl
  · intro visit h
    rw [getBookingIDFromShipment_some, h]
    rfl
  · intro visit h1 h2
    rw [getBookingIDFromShipment_some]
    cases hinc : jsIncludes visit.shipmentLabel BOOKING_TOKEN with
    | true => simp [h1]
    | false => simp [h2]

/-- Claim C3 witness: the amended statement applied at labels "Booking 42",
"42", and the unparsable label "abc". -/
theorem claim3_witness :
    getBookingIDFromShipment (some visitBooking42) = some 42 ∧
    getBookingIDFromShipment (some visitBare42) = some 42 ∧
    getBookingIDFromShipment (some visitLabelAbc) ≠ some (-1) := by
  refine ⟨claim3_theorem.1 visitBooking42 rfl, claim3_theorem.2.1 visitBare42 rfl, ?_⟩
  exact claim3_theorem.2.2.2 visitLabelAbc rfl rfl

/-! ### Claim theorems: C9 -/

/-- Claim C9 counterexample: the non-null visit labelled "Booking -1" makes
`getBookingIDFromShipment` return −1, so the −1 sentinel is not produced
exclusively for a null/undefined visit argument. -/
theorem claim9_counterexample :
    getBookingIDFromShipment (some visitLabelBookingMinusOne) = some (-1) ∧
    jsIncludes visitLabelBookingMinusOne.shipmentLabel BOOKING_TOKEN = true := by
  constructor
  · rfl
  · rfl

/-- Claim C9 (amended): a non-null visit whose label neither contains the
"Booking" token nor has a leading integer yields the NaN value (`none`), not
−1 and without an error; and −1 arises only from a label whose processed form
parses to −1 (besides the null-visit case), never from a parse failure. -/
theorem claim9_theorem (visit : Visit) :
    (jsIncludes visit.shipmentLabel BOOKING_TOKEN = false →
      jsParseInt (jsTrim visit.shipmentLabel) = none →
      getBookingIDFromShipment (some visit) = none) ∧
    (getBookingIDFromShipment (some visit) = some (-1) →
      (jsIncludes visit.shipmentLabel BOOKING_TOKEN = true ∧
        jsParseInt (jsTrim (jsReplaceFirst visit.shipmentLabel BOOKING_TOKEN "")) =
          some (-1)) ∨
      (jsIncludes visit.shipmentLabel BOOKING_TOKEN = false ∧
        jsParseInt (jsTrim visit.shipmentLabel) = some (-1))) := by
  constructor
  · intro hinc hp
    rw [getBookingIDFromShipment_some]
    simp [hinc, hp]
  · intro h
    rw [getBookingIDFromShipment_some] at h
    cases hinc : jsIncludes visit.shipmentLabel BOOKING_TOKEN with
    | true =>
      rw [hinc] at h
      simp at h
      exact Or.inl ⟨rfl, h⟩
    | false =>
      rw [hinc] at h
      simp at h
      exact Or.inr ⟨rfl, h⟩

/-- Claim C9 witness: the NaN branch at the unparsable label "abc" and the
parsed-to-−1 branch at label "Booking -1". -/
theorem claim9_witness :
    getBookingIDFromShipment (some visitLabelAbc) = none ∧
    ((jsIncludes visitLabelBookingMinusOne.shipmentLabel BOOKING_TOKEN = true ∧
        jsParseInt (jsTrim (jsReplaceFirst visitLabelBookingMinusOne.shipmentLabel
          BOOKING_TOKEN "")) = some (-1)) ∨
      (jsIncludes visitLabelBookingMinusOne.shipmentLabel BOOKING_TOKEN = false ∧
        jsParseInt (jsTrim visitLabelBookingMinusOne.shipmentLabel) = some (-1))) := by
  constructor
  · exact (claim9_theorem visitLabelAbc).1 rfl rfl
  · exact (claim9_theorem visitLabelBookingMinusOne).2 rfl

/-! ### Claim theorems: C7 -/

/-- Claim C7: whenever the request body is present but its bookings field is
absent, not an array, or an empty array, the handler answers 400 with the
"At least one booking is required" message, and the solver is never invoked. -/
theorem claim7_theorem (req : HttpRequest) (body : RequestBody)
    (hbody : req.body = some body)
    (hinv : isInvalidArrayField body.bookings = true) :
    optimizeRouteFunction req = .response 400 "At least one booking is required" ∧
    ∀ bs vs, optimizeRouteFunction req ≠ .solverInvoked bs vs := by
  have h1 : optimizeRouteFunction req =
      .response 400 "At least one booking is required" := by
    unfold optimizeRouteFunction
    rw [hbody]
    simp [hinv]
  refine ⟨h1, fun bs vs hc => ?_⟩
  rw [h1] at hc
  simp at hc

/-- Claim C7 witness: the request with an empty bookings array is rejected. -/
theorem claim7_witness :
    optimizeRouteFunction reqEmptyBookings =
      .response 400 "At least one booking is required" :=
  (claim7_theorem reqEmptyBookings _ rfl rfl).1

/-! ### Claim theorems: C10 -/

/-- Claim C10: on an empty routes array `createVisitsAPIResponse` returns the
object holding only the status field set to "Ok"; the record-list field
`responde` is absent (`none`), not an empty list. -/
theorem claim10_theorem (bookings : List Booking) :
    createVisitsAPIResponse bookings [] =
      .ok { status := "Ok", responde := none } := rfl

/-! ### Claim theorems: C6 -/

/-- Claim C6: `total_routes` always equals the length of the routes array,
while routes lacking metrics contribute no per-route entry (so the entry count
is the number of routes with metrics and the two counts may diverge); each
summarized entry has `total_stops` and `total_dropoffs` both equal to the
count of non-pickup visits of its route. -/
theorem claim6_theorem (response : SolverResponse) :
    (buildOptimizationSummary response).total_routes = response.routes.length ∧
    (buildOptimizationSummary response).routes.length =
      (response.routes.filter (fun r => r.metrics.isSome)).length ∧
    ∀ rs ∈ (buildOptimizationSummary response).routes,
      rs.total_stops = rs.total_dropoffs ∧
      ∃ j, ∃ hj : j < response.routes.length, ∃ m,
        (response.routes.get ⟨j, hj⟩).metrics = some m ∧
        rs.route_number = j + 1 ∧
        rs.total_stops = ((response.routes.get ⟨j, hj⟩).visits.filter
          (fun v => !v.isPickup)).length ∧
        rs.total_dropoffs = ((response.routes.get ⟨j, hj⟩).visits.filter
          (fun v => !v.isPickup)).length := by
  refine ⟨rfl, summaryRoutesAux_length response.routes 0, ?_⟩
  intro rs hrs
  obtain ⟨j, hj, m, h1, h2⟩ := summaryRoutesAux_mem response.routes 0 rs hrs
  refine ⟨?_, j, hj, m, h1, ?_, ?_, ?_⟩
  · rw [h2]; rfl
  · rw [h2]; simp [mkRouteSummary]
  · rw [h2]; rfl
  · rw [h2]; rfl

/-- Claim C6 witness: on a response with one metrics-carrying route and one
route without metrics, `total_routes` is 2 while its single summary entry has
equal stop and drop-off counts. -/
theorem claim6_witness :
    (buildOptimizationSummary respC6).total_routes = 2 ∧
    (mkRouteSummary 0 routeNoFirstTransition metricsRouteOne).total_stops =
      (mkRouteSummary 0 routeNoFirstTransition metricsRouteOne).total_dropoffs := by
  constructor
  · exact (claim6_theorem respC6).1.trans rfl
  · have hmem : mkRouteSummary 0 routeNoFirstTransition metricsRouteOne ∈
        (buildOptimizationSummary respC6).routes := by
      simp [respC6, buildOptimizationSummary, summaryRoutesAux,
        routeNoFirstTransition, routeTwoWaves]
    exact ((claim6_theorem respC6).2.2 _ hmem).1

/-! ### Claim theorems: C2 -/

/-- Claim C2: the cumulative distance values recorded by the reconstructor are
monotonically non-decreasing over successive drop-off visits in solver order
whenever every transition's travel distance is non-negative; and when no
transition arrives at the first stop (and no later stop reuses its booking
id), the distance read back for the first stop is 0. -/
theorem claim2_theorem (dropoff_visits : List Visit) (transitions : List Transition) :
    ((∀ t ∈ transitions, 0 ≤ t.travelDistanceMeters) →
      List.Sorted (fun a b => a ≤ b)
        ((getCumulativeDistances dropoff_visits transitions).map
          (fun e => e.2.distanceMeters))) ∧
    (∀ v rest, dropoff_visits = v :: rest →
      (∀ t ∈ transitions, matchesVisit v t = false) →
      (∀ v' ∈ rest,
        getBookingIDFromShipment (some v') ≠ getBookingIDFromShipment (some v)) →
      ((objLookup (getCumulativeDistances dropoff_visits transitions)
          (getBookingIDFromShipment (some v))).map DistEntry.distanceMeters).getD 0
        = 0) := by
  constructor
  · intro hts
    have h := getCumulativeDistancesAux_sorted transitions hts dropoff_visits 0 0
    exact (List.sorted_cons.mp h).2
  · intro v rest hds hnt hfresh
    have hnone : objLookup (getCumulativeDistances dropoff_visits transitions)
        (getBookingIDFromShipment (some v)) = none := by
      rw [hds]
      apply objLookup_getCumulativeDistancesAux_none
      intro v' hv' heq
      rcases List.mem_cons.mp hv' with h1 | h1
      · rw [h1]; exact hnt
      · exact absurd heq (hfresh v' h1)
    rw [hnone]
    rfl

/-- Claim C2 witness: on the route whose first drop-off has no arriving
transition, the recorded distances are sorted and the first stop reads back
distance 0. -/
theorem claim2_witness :
    List.Sorted (fun a b => a ≤ b)
      ((getCumulativeDistances [visitOne, visitTwo] [transOneTwo]).map
        (fun e => e.2.distanceMeters)) ∧
    ((objLookup (getCumulativeDistances [visitOne, visitTwo] [transOneTwo])
        (getBookingIDFromShipment (some visitOne))).map DistEntry.distanceMeters).getD 0
      = 0 := by
  constructor
  · exact (claim2_theorem [visitOne, visitTwo] [transOneTwo]).1 (by decide)
  · exact (claim2_theorem [visitOne, visitTwo] [transOneTwo]).2 visitOne [visitTwo]
      rfl (by decide) (by decide)

/-! ### Claim theorems: C8 -/

/-- Claim C8 counterexample: a route that drops its first passengers before
picking up the next wave keeps the running load inside [0, capacity] at every
prefix, yet the sum of its positive deltas (what `getPassengersAlongRoute`
reports) is 10, exceeding the capacity constant 7. -/
theorem claim8_counterexample :
    wellFormedLoad routeTwoWaves VEHICLE_CAPACITY ∧
    getPassengersAlongRoute (some routeTwoWaves) = 10 ∧
    ¬ getPassengersAlongRoute (some routeTwoWaves) ≤ VEHICLE_CAPACITY := by
  refine ⟨by decide, by decide, by decide⟩

/-- Claim C8 (amended): for well-formed solver output whose route places all
pickup deltas before all drop-off deltas (the airport shuttle pattern), the
sum of positive passenger deltas equals the peak running load and therefore
never exceeds the vehicle capacity constant. -/
theorem claim8_theorem (route : Route) (l₁ l₂ : List Int)
    (hsplit : route.visits.map (fun v => v.passengersAmount) = l₁ ++ l₂)
    (hpos : ∀ x ∈ l₁, 0 < x) (hnonpos : ∀ x ∈ l₂, x ≤ 0)
    (hwf : wellFormedLoad route VEHICLE_CAPACITY) :
    getPassengersAlongRoute (some route) ≤ VEHICLE_CAPACITY := by
  have hfilter : (route.visits.map (fun v => v.passengersAmount)).filter
      (fun count => decide (0 < count)) = l₁ := by
    rw [hsplit, List.filter_append]
    rw [List.filter_eq_self.mpr, List.filter_eq_nil_iff.mpr]
    · simp
    · intro a ha
      have := hnonpos a ha
      simp
      omega
    · intro a ha
      simpa using hpos a ha
  have hsum : getPassengersAlongRoute (some route) = l₁.sum := by
    show ((route.visits.map (fun v => v.passengersAmount)).filter
        (fun count => decide (0 < count))).foldl (fun sum count => sum + count) 0
      = l₁.sum
    rw [hfilter, foldl_add_eq]
    simp
  have hmem : (0 : Int) + l₁.sum ∈
      runningLoadsFrom 0 (route.visits.map (fun v => v.passengersAmount)) := by
    rw [hsplit]
    exact sum_mem_runningLoadsFrom l₁ l₂ 0
  have hle := (hwf _ hmem).2
  rw [hsum]
  simpa using hle

/-- Claim C8 witness: a pickups-first route with loads 2 and 3 satisfies the
amended bound (5 ≤ 7). -/
theorem claim8_witness :
    getPassengersAlongRoute (some routePickupsFirst) ≤ VEHICLE_CAPACITY :=
  claim8_theorem routePickupsFirst [2, 3] [-2, -3] rfl (by decide) (by decide)
    (by decide)

/-! ### Claim theorems: C4 -/

/-- Claim C4: a drop-off visit with no arriving transition contributes no
entry under its booking id (given the spec invariant that booking ids are
unique among the drop-offs), and both downstream views — the detailed visits
view and the flat legacy response — render that visit with distance 0; when
every visit resolves to a booking, both views succeed rather than failing on
the missing entry. -/
theorem claim4_theorem (bookings : List Booking) (route : Route) (k : Nat)
    (hk : k < (route.visits.filter (fun v => !v.isPickup)).length)
    (hnt : ∀ t ∈ route.transitions,
      matchesVisit ((route.visits.filter (fun v => !v.isPickup)).get ⟨k, hk⟩) t
        = false)
    (hnodup : ((route.visits.filter (fun v => !v.isPickup)).map
      (fun v => getBookingIDFromShipment (some v))).Nodup) :
    objLookup (getCumulativeDistances (route.visits.filter (fun v => !v.isPickup))
        route.transitions)
      (getBookingIDFromShipment
        (some ((route.visits.filter (fun v => !v.isPickup)).get ⟨k, hk⟩))) = none ∧
    (∀ idx rd, routeVisitsDetail bookings false idx route = .ok rd →
      ∃ hk' : k < rd.visits.length, (rd.visits.get ⟨k, hk'⟩).distance = 0) ∧
    (∀ idx recs, routeFlatRecords bookings idx route = .ok recs →
      ∃ hk' : k + 1 < recs.length, (recs.get ⟨k + 1, hk'⟩).distancia = 0) ∧
    (∀ idx, (∀ v ∈ route.visits.filter (fun v => !v.isPickup),
        ∃ r, getReferenceBooking bookings v = .ok r) →
      (∃ rd, routeVisitsDetail bookings false idx route = .ok rd) ∧
      (∃ recs, routeFlatRecords bookings idx route = .ok recs)) := by
  have hnone : objLookup (getCumulativeDistances
      (route.visits.filter (fun v => !v.isPickup)) route.transitions)
      (getBookingIDFromShipment
        (some ((route.visits.filter (fun v => !v.isPickup)).get ⟨k, hk⟩))) = none := by
    rw [getCumulativeDistances_eq]
    apply objLookup_getCumulativeDistancesAux_none
    intro v' hv' heq
    have hvmem := List.get_mem (route.visits.filter (fun v => !v.isPickup)) k hk
    have hve : v' = (route.visits.filter (fun v => !v.isPickup)).get ⟨k, hk⟩ :=
      List.inj_on_of_nodup_map hnodup hv' hvmem heq
    rw [hve]
    exact hnt
  refine ⟨hnone, ?_, ?_, ?_⟩
  · intro idx rd h
    rw [routeVisitsDetail_false] at h
    cases hm : mapExceptIdx (buildVisitDetail bookings
        (getCumulativeDistances (route.visits.filter (fun v => !v.isPickup))
          route.transitions) (idx + 1) false) 0
        (route.visits.filter (fun v => !v.isPickup)) with
    | error e => rw [hm] at h; cases h
    | ok visits =>
      rw [hm] at h
      cases h
      have hlen := mapExceptIdx_length _ _ 0 visits hm
      have hk' : k < visits.length := by rw [hlen]; exact hk
      refine ⟨hk', ?_⟩
      have hget := mapExceptIdx_get _ _ 0 visits hm k hk hk'
      have hfields := buildVisitDetail_fields bookings _ (idx + 1) false (0 + k) _ _ hget
      show (visits.get ⟨k, hk'⟩).distance = 0
      rw [hfields.2, hnone]
      rfl
  · intro idx recs h
    obtain ⟨start, rest, hrec, hm, _, _, _, _, _, _, _, _⟩ :=
      routeFlatRecords_shape bookings idx route recs h
    subst hrec
    have hlen := mapExceptIdx_length _ _ 0 rest hm
    have hk1 : k < rest.length := by rw [hlen]; exact hk
    have hk' : k + 1 < (start :: rest).length := by
      simp only [List.length_cons]
      omega
    refine ⟨hk', ?_⟩
    have hget := mapExceptIdx_get _ _ 0 rest hm k hk hk1
    have hfields := buildFlatVisitRecord_fields bookings _ (idx + 1) (0 + k) _ _ hget
    show (rest.get ⟨k, hk1⟩).distancia = 0
    rw [hfields.2.2.2, hnone]
    rfl
  · intro idx hres
    exact ⟨routeVisitsDetail_isOk bookings idx route hres,
      routeFlatRecords_isOk bookings idx route hres⟩

/-- Claim C4 witness: on the route whose first drop-off has no arriving
transition, no entry exists under its booking id and both views build
successfully. -/
theorem claim4_witness :
    objLookup (getCumulativeDistances
        (routeNoFirstTransition.visits.filter (fun v => !v.isPickup))
        routeNoFirstTransition.transitions)
      (getBookingIDFromShipment
        (some ((routeNoFirstTransition.visits.filter (fun v => !v.isPickup)).get
          ⟨0, by decide⟩))) = none ∧
    (∃ rd, routeVisitsDetail [bookingOne, bookingTwo] false 0 routeNoFirstTransition
      = .ok rd) ∧
    (∃ recs, routeFlatRecords [bookingOne, bookingTwo] 0 routeNoFirstTransition
      = .ok recs) := by
  have h := claim4_theorem [bookingOne, bookingTwo] routeNoFirstTransition 0
    (by decide) (by decide) (by decide)
  have hres : ∀ v ∈ routeNoFirstTransition.visits.filter (fun v => !v.isPickup),
      ∃ r, getReferenceBooking [bookingOne, bookingTwo] v = .ok r := by
    intro v hv
    have hl : routeNoFirstTransition.visits.filter (fun v => !v.isPickup) =
        [visitOne, visitTwo] := rfl
    rw [hl] at hv
    have hv2 : v = visitOne ∨ v = visitTwo := by simpa using hv
    rcases hv2 with h1 | h1
    · exact ⟨{ ref_booking := bookingOne, ref_booking_origin_coordinates := coordA,
               ref_booking_destination_coordinates := coordB }, by rw [h1]; rfl⟩
    · exact ⟨{ ref_booking := bookingTwo, ref_booking_origin_coordinates := coordA,
               ref_booking_destination_coordinates := coordC }, by rw [h1]; rfl⟩
  obtain ⟨hrd, hrecs⟩ := h.2.2.2 0 hres
  exact ⟨h.1, hrd, hrecs⟩

/-! ### Claim theorems: C5 -/

/-- Claim C5: when `createVisitsAPIResponse` succeeds, the result carries
status "Ok" and its single record-list key holds exactly the records of the
LAST route (each earlier route's list having been overwritten): one start
record with position −1 whose coordinates are the first drop-off's booking
origin when a drop-off exists (zero placeholders otherwise), followed by one
0-based positioned record per drop-off visit. -/
theorem claim5_theorem (bookings : List Booking) (routes : List Route)
    (res : VisitsAPIResponse) (r : Route)
    (hlast : routes.getLast? = some r)
    (h : createVisitsAPIResponse bookings routes = .ok res) :
    res.status = "Ok" ∧
    ∃ recs, routeFlatRecords bookings (routes.length - 1) r = .ok recs ∧
      res.responde = some recs ∧
      ∃ start rest, recs = start :: rest ∧
        rest.length = (r.visits.filter (fun v => !v.isPickup)).length ∧
        start.posicion_en_ruta = -1 ∧
        start.num_ruta = routes.length ∧
        ((r.visits.filter (fun v => !v.isPickup)).head? = none →
          start.lat = 0 ∧ start.lng = 0) ∧
        (∀ fv, (r.visits.filter (fun v => !v.isPickup)).head? = some fv →
          ∃ rb, getReferenceBooking bookings fv = .ok rb ∧
            start.lat = rb.ref_booking_origin_coordinates.latitude ∧
            start.lng = rb.ref_booking_origin_coordinates.longitude) ∧
        (∀ j (hj : j < rest.length),
          (rest.get ⟨j, hj⟩).posicion_en_ruta = (j : Int)) := by
  obtain ⟨hstat, hdisj⟩ := createVisitsAPIRespAux_ok bookings routes 0 _ res h
  refine ⟨hstat, ?_⟩
  rcases hdisj with ⟨hnil, _⟩ | ⟨r', recs, hlast', hfr, hresp⟩
  · rw [hnil] at hlast
    cases hlast
  · rw [hlast'] at hlast
    cases hlast
    have hfr' : routeFlatRecords bookings (routes.length - 1) r = .ok recs := by
      simpa using hfr
    obtain ⟨start, rest, hrec, hm, hnr, _, hpos, _, _, _, hlatlng0, hlatlngS⟩ :=
      routeFlatRecords_shape bookings (routes.length - 1) r recs hfr'
    refine ⟨recs, hfr', hresp, start, rest, hrec,
      mapExceptIdx_length _ _ 0 rest hm, hpos, ?_, hlatlng0, hlatlngS, ?_⟩
    · have hne : routes ≠ [] := by
        intro hc
        rw [hc] at hlast'
        cases hlast'
      have harith : routes.length - 1 + 1 = routes.length := by
        cases routes with
        | nil => cases hne rfl
        | cons a l => simp
      rw [hnr, harith]
    · intro j hj
      have hj' : j < (r.visits.filter (fun v => !v.isPickup)).length := by
        rw [← mapExceptIdx_length _ _ 0 rest hm]
        exact hj
      have hget := mapExceptIdx_get _ _ 0 rest hm j hj' hj
      have hfields := buildFlatVisitRecord_fields bookings _ _ (0 + j) _ _ hget
      simpa using hfields.1

/-- Claim C5 witness: on two one-drop-off routes only the second route's
record list survives in the returned object. -/
theorem claim5_witness :
    createVisitsAPIResponse [bookingOne, bookingTwo]
        [routeNoFirstTransition, routeSecond] = .ok respC5 ∧
    respC5.responde = some respC5recs := by
  have hmain : createVisitsAPIResponse [bookingOne, bookingTwo]
      [routeNoFirstTransition, routeSecond] = .ok respC5 := rfl
  refine ⟨hmain, ?_⟩
  obtain ⟨hstat, recs, h1, h2, _⟩ := claim5_theorem [bookingOne, bookingTwo]
      [routeNoFirstTransition, routeSecond] respC5 routeSecond rfl hmain
  have hr2 : routeFlatRecords [bookingOne, bookingTwo]
      ([routeNoFirstTransition, routeSecond].length - 1) routeSecond =
        .ok respC5recs := rfl
  rw [h1] at hr2
  injection hr2 with he
  rw [h2, he]

end Transvip
